import Mathlib

/-! Verification of the better-playwright MCP server
(src/better-playwright/main.py).

The Python source is shallowly embedded.  The browser, its page, elements
and anchors (Playwright, an external collaborator) are modelled as
environments of fallible calls: a call's outcome is an `Except String`
value, where `Except.error e` models the call raising an exception whose
`str(e)` is `e`.  Every awaited Playwright call is also logged in a trace
of effects, so that frame properties ("no DOM mutation is executed") can
be stated.  `json.dumps(payload, indent=2)` (Python standard library,
external) is kept as the structured `payload` it serialises, since no
claim depends on the serialiser's exact text; `base64.b64encode` is
modelled by an executable Lean function together with a decoder and a
round-trip theorem. -/

namespace BetterPlaywright

/-- A JSON-like Python value, as passed to `json.dumps`: `Json.null` models
Python `None`. -/
inductive Json where
  | null : Json
  | str : String → Json
  | bool : Bool → Json
  | arr : List Json → Json
  | obj : List (String × Json) → Json

/-- Python `str | None` values placed into a `json.dumps` payload: `None`
serialises as JSON null. -/
def Json.ofOptStr : Option String → Json
  | Option.none => Json.null
  | Option.some s => Json.str s

/-- The value a tool coroutine returns to the MCP layer: a plain Python
string, the string `json.dumps(payload, indent=2)` — kept as the structured
`payload`, the serialiser being external and its exact text unused by any
claim — or Python's implicit `None` (a function falling off the end of its
body without a `return`). -/
inductive Ret where
  | str (s : String)
  | dumps (payload : Json)
  | pyNone

/-- Whether a tool's return value is a Python string. -/
def Ret.isStr : Ret → Bool
  | Ret.str _ => true
  | _ => false

/-- One awaited Playwright call, as recorded in a tool invocation's trace.
The constructors carry the arguments the source passes. -/
inductive Eff where
  | querySelector (sel : String)
  | click
  | textContent
  | queryAnchors
  | getAttribute (name : String)
  | anchorTextContent
  | evaluate (script : String)
  | isVisible
  | isEnabled
  | clear
  | typeText (t : String)
  | goto (url : String)
  | goBack
  | goForward
  | reload
  | accessibilitySnapshot
  | screenshot (fullPage : Bool) (imgType : String) (quality : Nat)
  | fill (sel : String) (value : String)
deriving DecidableEq

/-- The computation inside a tool's `try` block: from a trace of the calls
awaited so far, either a value or a raised exception's description, plus
the extended trace.  Every awaited call is logged before its outcome is
inspected, so a call that raises still appears in the trace. -/
def PW (α : Type) : Type := List Eff → Except String α × List Eff

/-- One awaited Playwright call with outcome `r`: logged, then its outcome
returned (a raised exception aborts the rest of the `try` block). -/
def PW.call {α : Type} (e : Eff) (r : Except String α) : PW α :=
  fun t => (r, t ++ [e])

def PW.pure {α : Type} (a : α) : PW α := fun t => (Except.ok a, t)

def PW.bind {α β : Type} (x : PW α) (f : α → PW β) : PW β := fun t =>
  match x t with
  | (Except.ok a, t2) => f a t2
  | (Except.error e, t2) => (Except.error e, t2)

instance instMonadPW : Monad PW where
  pure := PW.pure
  bind := PW.bind

/-- The `try`/`except Exception as e` wrapper at a tool's operation
boundary: the body runs from an empty trace; a value is returned as is, a
raised exception's description is handed to the `except` clause's handler.
By construction no exception escapes the tool. -/
def runTool (body : PW Ret) (handler : String → Ret) : Ret × List Eff :=
  match body [] with
  | (Except.ok v, t) => (v, t)
  | (Except.error e, t) => (handler e, t)

/-- An anchor element handle, as touched by the `extractLinks` loop:
the outcomes of `link.get_attribute("href")` and `link.text_content()`
(both return `str | None` on success). -/
structure Anchor where
  getHrefAttr : Except String (Option String)
  textContent : Except String (Option String)

/-- An anchor whose two calls succeed with the given data. -/
def Anchor.ofData (d : Option String × Option String) : Anchor :=
  { getHrefAttr := Except.ok d.1, textContent := Except.ok d.2 }

/-- An element handle as returned by `page.query_selector`: the outcome of
each call `getElement` can make on it. -/
structure Element where
  click : Except String Unit
  textContent : Except String (Option String)
  queryAnchors : Except String (List Anchor)
  tagNameLower : Except String String
  isVisible : Except String Bool
  isEnabled : Except String Bool
  attributes : Except String (List (String × String))
  clear : Except String Unit
  typeText : String → Except String Unit

/-- The active page of the session: the outcome of each Playwright call the
four tools make on it.  `accessibilitySnapshot` yields the JSON-like value
`page.accessibility.snapshot()` returns, `screenshot` the screenshot's
bytes. -/
structure Page where
  querySelector : String → Except String (Option Element)
  goto : String → Except String Unit
  goBack : Except String Unit
  goForward : Except String Unit
  reload : Except String Unit
  accessibilitySnapshot : Except String Json
  screenshot : Except String (List Nat)
  fill : String → String → Except String Unit

/-- `ElementActionInput` (main.py lines 82-100).  The `type` and `action`
fields are pydantic `Literal` fields validated upstream; the function body
branches on their string values, so they are embedded as strings and the
defensive non-enumerated branches stay reachable, as the spec requires.
`text: str | None = None`. -/
structure ElementActionInput where
  type : String
  selector : String
  action : String
  text : Option String

/-- `NavigateInput` (main.py lines 103-111): `type` is a `Literal` field
with default `"url"`; `url: str | None = None`. -/
structure NavigateInput where
  type : String
  url : Option String

/-- Pydantic construction of a `NavigateInput` from the request's optional
fields: an absent `type` takes the declared default `"url"`; a present one
must lie in the `Literal` enumeration, else validation fails upstream
(`Option.none` here). -/
def NavigateInput.validate (ty : Option String) (u : Option String) :
    Option NavigateInput :=
  let t := ty.getD "url"
  if t = "url" ∨ t = "back" ∨ t = "forward" ∨ t = "refresh" then
    Option.some { type := t, url := u }
  else
    Option.none

/-- `SnapshotInput` (main.py lines 114-118). -/
structure SnapshotInput where
  type : String

/-- `FillInputInput` (main.py lines 121-133). -/
structure FillInputInput where
  type : String
  selector : String
  value : String

/-- The selector-building `if`/`elif` chain of `getElement` (main.py lines
149-159): `Option.none` models reaching the `else` branch, where the tool
returns its invalid-type error. -/
def getElementSelector (ty sel : String) : Option String :=
  if ty = "className" then Option.some ("." ++ sel)
  else if ty = "id" then Option.some ("#" ++ sel)
  else if ty = "text" then Option.some ("text=" ++ sel)
  else Option.none

/-- The selector-building `if`/`elif` chain of `fillInput` (main.py lines
296-308), covering the five kinds. -/
def fillInputSelector (ty sel : String) : Option String :=
  if ty = "className" then Option.some ("." ++ sel)
  else if ty = "id" then Option.some ("#" ++ sel)
  else if ty = "text" then Option.some ("text=" ++ sel)
  else if ty = "placeholder" then Option.some ("[placeholder='" ++ sel ++ "']")
  else if ty = "label" then Option.some ("label:text('" ++ sel ++ "') >> input")
  else Option.none

/-- The `for link in links` loop of the `extractLinks` action (main.py
lines 182-185): for each anchor, in document order, await its `href`
attribute and its text content and collect the pair. -/
def extractLinksLoop : List Anchor → PW (List (Option String × Option String))
  | [] => Pure.pure []
  | link :: rest => do
    let href ← PW.call (Eff.getAttribute "href") link.getHrefAttr
    let text ← PW.call Eff.anchorTextContent link.textContent
    let tail ← extractLinksLoop rest
    Pure.pure ((href, text) :: tail)

/-- The action dispatch of `getElement` once the element was found (main.py
lines 166-216): the `if`/`elif` chain on `input.action`. -/
def getElementAction (input : ElementActionInput) (selector : String)
    (element : Element) : PW Ret :=
  if input.action = "click" then do
      let _ ← PW.call Eff.click element.click
      Pure.pure (Ret.str ("Successfully clicked element with selector: " ++ selector))
    else if input.action = "getText" then do
      let textContent ← PW.call Eff.textContent element.textContent
      Pure.pure (Ret.dumps (Json.obj
        [("action", Json.str "getText"), ("selector", Json.str selector),
         ("text", Json.ofOptStr textContent)]))
    else if input.action = "extractLinks" then do
      let links ← PW.call Eff.queryAnchors element.queryAnchors
      let linkData ← extractLinksLoop links
      Pure.pure (Ret.dumps (Json.obj
        [("action", Json.str "extractLinks"), ("selector", Json.str selector),
         ("links", Json.arr (linkData.map (fun d =>
           Json.obj [("href", Json.ofOptStr d.1), ("text", Json.ofOptStr d.2)])))]))
    else if input.action = "getRawElement" then do
      let tag ← PW.call (Eff.evaluate "el => el.tagName.toLowerCase()") element.tagNameLower
      let textContent ← PW.call Eff.textContent element.textContent
      let visible ← PW.call Eff.isVisible element.isVisible
      let enabled ← PW.call Eff.isEnabled element.isEnabled
      let attrs ← PW.call
        (Eff.evaluate "el => Object.fromEntries([...el.attributes].map(attr => [attr.name, attr.value]))")
        element.attributes
      Pure.pure (Ret.dumps (Json.obj
        [("action", Json.str "getRawElement"), ("selector", Json.str selector),
         ("tag_name", Json.str tag), ("text_content", Json.ofOptStr textContent),
         ("visible", Json.bool visible), ("enabled", Json.bool enabled),
         ("attributes", Json.obj (attrs.map (fun kv => (kv.1, Json.str kv.2))))]))
    else if input.action = "type" then
      match input.text with
      | Option.none =>
        Pure.pure (Ret.str "Error: 'text' parameter is required when action is 'type'")
      | Option.some text => do
        let _ ← PW.call Eff.clear element.clear
        let _ ← PW.call (Eff.typeText text) (element.typeText text)
        Pure.pure (Ret.str ("Successfully typed '" ++ text ++
          "' into element with selector: " ++ selector))
    else
      Pure.pure (Ret.str ("Error: Invalid action '" ++ input.action ++
        "'. Must be 'click', 'getText', 'extractLinks', 'getRawElement', or 'type'"))

/-- The body of `getElement`'s `try` block (main.py lines 161-216), with the
selector already built: query the page, return the not-found message when no
element matched, else dispatch on `input.action`. -/
def getElementBody (page : Page) (input : ElementActionInput)
    (selector : String) : PW Ret := do
  let element ← PW.call (Eff.querySelector selector) (page.querySelector selector)
  match element with
  | Option.none =>
    Pure.pure (Ret.str ("Element not found with selector: " ++ selector))
  | Option.some element => getElementAction input selector element

/-- `getElement` (main.py lines 143-219): selector building happens before
the `try` block, so an invalid `type` returns its error with no Playwright
call made; the rest of the body runs under `try`/`except`. -/
def getElement (page : Page) (input : ElementActionInput) : Ret × List Eff :=
  match getElementSelector input.type input.selector with
  | Option.none =>
    (Ret.str ("Error: Invalid type '" ++ input.type ++
      "'. Must be 'className', 'id', or 'text'"), [])
  | Option.some selector =>
    runTool (getElementBody page input selector)
      (fun e => Ret.str ("Error performing action '" ++ input.action ++
        "' on element: " ++ e))

/-- The body of `navigate`'s `try` block (main.py lines 228-248). -/
def navigateBody (page : Page) (input : NavigateInput) : PW Ret :=
  if input.type = "url" then
    match input.url with
    | Option.none =>
      Pure.pure (Ret.str "Error: url parameter is required when type is 'url'")
    | Option.some url => do
      let _ ← PW.call (Eff.goto url) (page.goto url)
      Pure.pure (Ret.str ("Successfully navigated to " ++ url))
  else if input.type = "back" then do
    let _ ← PW.call Eff.goBack page.goBack
    Pure.pure (Ret.str "Successfully navigated back")
  else if input.type = "forward" then do
    let _ ← PW.call Eff.goForward page.goForward
    Pure.pure (Ret.str "Successfully navigated forward")
  else if input.type = "refresh" then do
    let _ ← PW.call Eff.reload page.reload
    Pure.pure (Ret.str "Successfully refreshed the page")
  else
    Pure.pure (Ret.str ("Error: Invalid navigation type '" ++ input.type ++
      "'. Must be 'url', 'back', 'forward', or 'refresh'"))

/-- `navigate` (main.py lines 222-251). -/
def navigate (page : Page) (input : NavigateInput) : Ret × List Eff :=
  runTool (navigateBody page input)
    (fun e => Ret.str ("Error performing navigation '" ++ input.type ++ "': " ++ e))

/-- The position of byte value `n / 4^k` in the base64 alphabet. -/
def b64char (n : Nat) : Char :=
  "ABCDEFGHIJKLMNOPQRSTUVWXYZabcdefghijklmnopqrstuvwxyz0123456789+/".toList.getD n 'A'

/-- `base64.b64encode` (Python standard library, external): standard base64
of a byte sequence, three bytes per four output characters, with `=`
padding. -/
def b64encodeChars : List Nat → List Char
  | [] => []
  | [a] => [b64char (a / 4), b64char (a % 4 * 16), '=', '=']
  | [a, b] => [b64char (a / 4), b64char (a % 4 * 16 + b / 16), b64char (b % 16 * 4), '=']
  | a :: b :: c :: rest =>
    b64char (a / 4) :: b64char (a % 4 * 16 + b / 16) :: b64char (b % 16 * 4 + c / 64) ::
      b64char (c % 64) :: b64encodeChars rest

/-- `base64.b64encode(...).decode("utf-8")` as a string. -/
def b64encode (bytes : List Nat) : String := String.mk (b64encodeChars bytes)

/-- The index of a character in the base64 alphabet. -/
def b64charIndex (c : Char) : Option Nat :=
  (List.range 64).find? (fun i => b64char i = c)

/-- A reference base64 decoder, used to state that `b64encode`'s output is
valid base64: four characters at a time, honouring `=` padding at the end. -/
def b64decodeChars : List Char → Option (List Nat)
  | [] => Option.some []
  | w :: x :: y :: z :: rest =>
    match b64charIndex w, b64charIndex x with
    | Option.some a, Option.some b =>
      if y = '=' then
        if z = '=' then
          if rest = [] then Option.some [a * 4 + b / 16] else Option.none
        else Option.none
      else
        match b64charIndex y with
        | Option.some c =>
          if z = '=' then
            if rest = [] then Option.some [a * 4 + b / 16, b % 16 * 16 + c / 4]
            else Option.none
          else
            match b64charIndex z, b64decodeChars rest with
            | Option.some d, Option.some tail =>
              Option.some ((a * 4 + b / 16) :: (b % 16 * 16 + c / 4) ::
                (c % 4 * 64 + d) :: tail)
            | _, _ => Option.none
        | Option.none => Option.none
    | _, _ => Option.none
  | _ => Option.none

/-- The reference decoder over a string. -/
def b64decode (s : String) : Option (List Nat) := b64decodeChars s.toList

/-- The body of `getSnapshot`'s `try` block (main.py lines 260-284).  The
`if`/`elif` chain has no `else`: a `type` outside the enumeration falls off
the end of the block and the function returns Python `None`. -/
def getSnapshotBody (page : Page) (input : SnapshotInput) : PW Ret :=
  if input.type = "accessibility" then do
    let tree ← PW.call Eff.accessibilitySnapshot page.accessibilitySnapshot
    Pure.pure (Ret.dumps (Json.obj
      [("type", Json.str "accessibility"), ("snapshot", tree)]))
  else if input.type = "image" then do
    let bytes ← PW.call (Eff.screenshot true "jpeg" 50) page.screenshot
    Pure.pure (Ret.dumps (Json.obj
      [("type", Json.str "image"), ("format", Json.str "jpeg"),
       ("data", Json.str (b64encode bytes)), ("encoding", Json.str "base64")]))
  else
    Pure.pure Ret.pyNone

/-- `getSnapshot` (main.py lines 254-287). -/
def getSnapshot (page : Page) (input : SnapshotInput) : Ret × List Eff :=
  runTool (getSnapshotBody page input)
    (fun e => Ret.str ("Error capturing " ++ input.type ++ " snapshot: " ++ e))

/-- The body of `fillInput`'s `try` block (main.py lines 310-313), with the
selector already built. -/
def fillInputBody (page : Page) (selector value : String) : PW Ret := do
  let _ ← PW.call (Eff.fill selector value) (page.fill selector value)
  Pure.pure (Ret.str ("Successfully filled '" ++ value ++
    "' into input field with selector: " ++ selector))

/-- `fillInput` (main.py lines 290-316): selector building happens before
the `try` block. -/
def fillInput (page : Page) (input : FillInputInput) : Ret × List Eff :=
  match fillInputSelector input.type input.selector with
  | Option.none =>
    (Ret.str ("Error: Invalid type '" ++ input.type ++
      "'. Must be 'className', 'id', 'text', 'placeholder', or 'label'"), [])
  | Option.some selector =>
    runTool (fillInputBody page selector input.value)
      (fun e => Ret.str ("Error filling input field: " ++ e))

/-- The outcomes of the three awaited cleanup calls of `app_lifespan`'s
`finally` block: `context.close()`, `browser.close()`, `playwright.stop()`. -/
structure LifecycleEnv where
  contextClose : Except String Unit
  browserClose : Except String Unit
  playwrightStop : Except String Unit

/-- One teardown step of the session release. -/
inductive TStep where
  | contextClose
  | browserClose
  | playwrightStop
deriving DecidableEq

/-- The `finally` block of `app_lifespan` (main.py lines 68-72): the three
awaited cleanup calls in textual order.  In Python an exception raised by a
statement of a `finally` block aborts the block — the remaining statements
do not run and the exception propagates — so each later call runs only if
every earlier one returned normally.  The result is the list of steps that
were attempted and the block's outcome. -/
def appLifespanRelease (env : LifecycleEnv) : List TStep × Except String Unit :=
  match env.contextClose with
  | Except.error e => ([TStep.contextClose], Except.error e)
  | Except.ok _ =>
    match env.browserClose with
    | Except.error e => ([TStep.contextClose, TStep.browserClose], Except.error e)
    | Except.ok _ =>
      match env.playwrightStop with
      | Except.error e =>
        ([TStep.contextClose, TStep.browserClose, TStep.playwrightStop], Except.error e)
      | Except.ok _ =>
        ([TStep.contextClose, TStep.browserClose, TStep.playwrightStop], Except.ok ())

/-- An element whose every call succeeds with inert values. -/
def elemW : Element where
  click := Except.ok ()
  textContent := Except.ok (Option.some "hello")
  queryAnchors := Except.ok []
  tagNameLower := Except.ok "div"
  isVisible := Except.ok true
  isEnabled := Except.ok true
  attributes := Except.ok []
  clear := Except.ok ()
  typeText := fun _ => Except.ok ()

/-- A page whose every call succeeds; `querySelector` finds `elemW` and the
screenshot's bytes start with the JPEG start-of-image marker. -/
def pageW : Page where
  querySelector := fun _ => Except.ok (Option.some elemW)
  goto := fun _ => Except.ok ()
  goBack := Except.ok ()
  goForward := Except.ok ()
  reload := Except.ok ()
  accessibilitySnapshot := Except.ok Json.null
  screenshot := Except.ok [255, 216, 255, 224, 0, 16]
  fill := fun _ _ => Except.ok ()

/-- A page whose every call raises an exception described as "boom". -/
def pageBoom : Page where
  querySelector := fun _ => Except.error "boom"
  goto := fun _ => Except.error "boom"
  goBack := Except.error "boom"
  goForward := Except.error "boom"
  reload := Except.error "boom"
  accessibilitySnapshot := Except.error "boom"
  screenshot := Except.error "boom"
  fill := fun _ _ => Except.error "boom"

/-- A page on which `query_selector` succeeds but matches no element. -/
def pageNoMatch : Page :=
  { pageW with querySelector := fun _ => Except.ok Option.none }

/-- Anchor data for the extractLinks witness: the second anchor has no
`href` attribute. -/
def linkDataW : List (Option String × Option String) :=
  [(Option.some "https://example.com/a", Option.some "first"),
   (Option.none, Option.some "second")]

/-- A page whose found element contains the two anchors of `linkDataW`. -/
def pageLinks : Page :=
  { pageW with querySelector := fun _ => Except.ok (Option.some
      { elemW with queryAnchors := Except.ok (linkDataW.map Anchor.ofData) }) }

theorem PW.bind_ok {α β : Type} {x : PW α} {f : α → PW β} {t t2 : List Eff}
    {a : α} (h : x t = (Except.ok a, t2)) : (x >>= f) t = f a t2 := by
  show PW.bind x f t = f a t2
  simp [PW.bind, h]

theorem PW.bind_error {α β : Type} {x : PW α} {f : α → PW β} {t t2 : List Eff}
    {e : String} (h : x t = (Except.error e, t2)) :
    (x >>= f) t = (Except.error e, t2) := by
  show PW.bind x f t = (Except.error e, t2)
  simp [PW.bind, h]

theorem runTool_eq (body : PW Ret) (handler : String → Ret) :
    runTool body handler = match body [] with
      | (Except.ok v, t) => (v, t)
      | (Except.error e, t) => (handler e, t) := rfl

theorem PW.call_bind_ok {α β : Type} {r : Except String α} {a : α}
    (h : r = Except.ok a) (e : Eff) (f : α → PW β) (t : List Eff) :
    (PW.call e r >>= f) t = f a (t ++ [e]) :=
  PW.bind_ok (by simp [PW.call, h])

theorem PW.call_bind_error {α β : Type} {r : Except String α} {er : String}
    (h : r = Except.error er) (e : Eff) (f : α → PW β) (t : List Eff) :
    (PW.call e r >>= f) t = (Except.error er, t ++ [e]) :=
  PW.bind_error (by simp [PW.call, h])

theorem runTool_error {body : PW Ret} {handler : String → Ret} {e : String}
    (h : (body []).1 = Except.error e) :
    (runTool body handler).1 = handler e := by
  unfold runTool
  rcases hb : body [] with ⟨r, t⟩
  rw [hb] at h
  change r = Except.error e at h
  subst h
  rfl

theorem getElement_some_eq {page : Page} {input : ElementActionInput}
    {selector : String}
    (hsel : getElementSelector input.type input.selector = Option.some selector) :
    getElement page input =
      runTool (getElementBody page input selector)
        (fun e => Ret.str ("Error performing action '" ++ input.action ++
          "' on element: " ++ e)) := by
  unfold getElement
  rw [hsel]

theorem fillInput_some_eq {page : Page} {input : FillInputInput}
    {selector : String}
    (hsel : fillInputSelector input.type input.selector = Option.some selector) :
    fillInput page input =
      runTool (fillInputBody page selector input.value)
        (fun e => Ret.str ("Error filling input field: " ++ e)) := by
  unfold fillInput
  rw [hsel]

theorem getElementBody_found {page : Page} {input : ElementActionInput}
    {selector : String} {element : Element}
    (hq : page.querySelector selector = Except.ok (Option.some element)) :
    getElementBody page input selector [] =
      getElementAction input selector element [Eff.querySelector selector] := by
  unfold getElementBody
  rw [PW.call_bind_ok hq]
  rfl

theorem getElementBody_notFound {page : Page} {input : ElementActionInput}
    {selector : String}
    (hq : page.querySelector selector = Except.ok Option.none) :
    getElementBody page input selector [] =
      (Except.ok (Ret.str ("Element not found with selector: " ++ selector)),
       [Eff.querySelector selector]) := by
  unfold getElementBody
  rw [PW.call_bind_ok hq]
  rfl

theorem getElementAction_type_noText {input : ElementActionInput}
    {selector : String} {element : Element} (t : List Eff)
    (hact : input.action = "type") (htext : input.text = Option.none) :
    getElementAction input selector element t =
      (Except.ok (Ret.str "Error: 'text' parameter is required when action is 'type'"),
       t) := by
  unfold getElementAction
  rw [hact, htext]
  rw [if_neg (by decide), if_neg (by decide), if_neg (by decide), if_neg (by decide),
    if_pos rfl]
  rfl

theorem getElementAction_invalid {input : ElementActionInput}
    {selector : String} {element : Element} (t : List Eff)
    (h1 : input.action ≠ "click") (h2 : input.action ≠ "getText")
    (h3 : input.action ≠ "extractLinks") (h4 : input.action ≠ "getRawElement")
    (h5 : input.action ≠ "type") :
    getElementAction input selector element t =
      (Except.ok (Ret.str ("Error: Invalid action '" ++ input.action ++
        "'. Must be 'click', 'getText', 'extractLinks', 'getRawElement', or 'type'")),
       t) := by
  unfold getElementAction
  rw [if_neg h1, if_neg h2, if_neg h3, if_neg h4, if_neg h5]
  rfl

theorem extractLinksLoop_ofData (ds : List (Option String × Option String))
    (t : List Eff) :
    ∃ t2, extractLinksLoop (ds.map Anchor.ofData) t = (Except.ok ds, t2) := by
  induction ds generalizing t with
  | nil => exact ⟨t, rfl⟩
  | cons d rest ih =>
    obtain ⟨t2, h2⟩ := ih (t ++ [Eff.getAttribute "href"] ++ [Eff.anchorTextContent])
    refine ⟨t2, ?_⟩
    have hstep : extractLinksLoop ((d :: rest).map Anchor.ofData) t =
        (extractLinksLoop (rest.map Anchor.ofData) >>= fun tail =>
          Pure.pure ((d.1, d.2) :: tail))
          (t ++ [Eff.getAttribute "href"] ++ [Eff.anchorTextContent]) := rfl
    rw [hstep, PW.bind_ok h2]
    rfl

theorem getElementAction_extractLinks {input : ElementActionInput}
    (selector : String) {element : Element}
    {ds : List (Option String × Option String)} (t : List Eff)
    (hact : input.action = "extractLinks")
    (hanch : element.queryAnchors = Except.ok (ds.map Anchor.ofData)) :
    ∃ t2, getElementAction input selector element t =
      (Except.ok (Ret.dumps (Json.obj
        [("action", Json.str "extractLinks"), ("selector", Json.str selector),
         ("links", Json.arr (ds.map (fun d =>
           Json.obj [("href", Json.ofOptStr d.1), ("text", Json.ofOptStr d.2)])))])),
       t2) := by
  obtain ⟨t2, h2⟩ := extractLinksLoop_ofData ds (t ++ [Eff.queryAnchors])
  refine ⟨t2, ?_⟩
  unfold getElementAction
  rw [hact]
  rw [if_neg (by decide), if_neg (by decide), if_pos rfl]
  rw [PW.call_bind_ok hanch]
  show (extractLinksLoop (ds.map Anchor.ofData) >>= fun linkData =>
    Pure.pure (Ret.dumps (Json.obj
      [("action", Json.str "extractLinks"), ("selector", Json.str selector),
       ("links", Json.arr (linkData.map (fun d =>
         Json.obj [("href", Json.ofOptStr d.1), ("text", Json.ofOptStr d.2)])))])))
    (t ++ [Eff.queryAnchors]) = _
  rw [PW.bind_ok h2]
  rfl

/-- C4: for each of the five selector kinds, selector building in `fillInput`
produces exactly the templated string of the spec's table — the equations
hold for every raw value, by plain string concatenation, so the raw value is
interpolated unescaped — the built expression is exactly what is forwarded
to `page.fill`, and a kind outside the five yields the designated
invalid-type error message (with no Playwright call made) rather than a
crash. -/
theorem fillInput_selector_templates :
    (∀ raw : String,
      fillInputSelector "className" raw = Option.some ("." ++ raw) ∧
      fillInputSelector "id" raw = Option.some ("#" ++ raw) ∧
      fillInputSelector "text" raw = Option.some ("text=" ++ raw) ∧
      fillInputSelector "placeholder" raw = Option.some ("[placeholder='" ++ raw ++ "']") ∧
      fillInputSelector "label" raw = Option.some ("label:text('" ++ raw ++ "') >> input")) ∧
    (∀ page input selector,
      fillInputSelector input.type input.selector = Option.some selector →
      (fillInput page input).2 = [Eff.fill selector input.value]) ∧
    (∀ page input,
      input.type ∉ (["className", "id", "text", "placeholder", "label"] : List String) →
      fillInput page input = (Ret.str ("Error: Invalid type '" ++ input.type ++
        "'. Must be 'className', 'id', 'text', 'placeholder', or 'label'"), [])) := by
  refine ⟨fun raw => ⟨rfl, rfl, rfl, rfl, rfl⟩, ?_, ?_⟩
  · intro page input selector h
    unfold fillInput
    rw [h]
    show (runTool (fillInputBody page selector input.value)
      (fun e => Ret.str ("Error filling input field: " ++ e))).2 = _
    rw [runTool_eq]
    unfold fillInputBody
    rcases page.fill selector input.value with e | u
    · rw [PW.call_bind_error rfl]
      rfl
    · rw [PW.call_bind_ok rfl]
      rfl
  · intro page input h
    simp only [List.mem_cons, List.mem_singleton, not_or] at h
    obtain ⟨h1, h2, h3, h4, h5, -⟩ := h
    unfold fillInput fillInputSelector
    rw [if_neg h1, if_neg h2, if_neg h3, if_neg h4, if_neg h5]

/-- Witness for C4 at concrete inputs: the five templates at raw value
"v'al" (a value holding a quote, kept verbatim), the forwarded expression
for a placeholder fill, and the invalid-type error for kind "xpath". -/
theorem fillInput_selector_templates_witness :
    (fillInputSelector "placeholder" "v'al" = Option.some "[placeholder='v'al']" ∧
      fillInputSelector "label" "v'al" = Option.some "label:text('v'al') >> input") ∧
    (fillInput pageW { type := "placeholder", selector := "Search", value := "q" }).2 =
      [Eff.fill "[placeholder='Search']" "q"] ∧
    fillInput pageW { type := "xpath", selector := "s", value := "q" } =
      (Ret.str "Error: Invalid type 'xpath'. Must be 'className', 'id', 'text', 'placeholder', or 'label'", []) := by
  refine ⟨⟨(fillInput_selector_templates.1 "v'al").2.2.2.1,
          (fillInput_selector_templates.1 "v'al").2.2.2.2⟩,
         fillInput_selector_templates.2.1 pageW _ _ rfl,
         ?_⟩
  have h := fillInput_selector_templates.2.2 pageW
    { type := "xpath", selector := "s", value := "q" } (by decide)
  exact h

/-- C10: the selector-building logic duplicated in `getElement` and
`fillInput` produces the identical query expression for every raw value on
each of the three kinds the two copies share. -/
theorem selector_building_duplicates_agree :
    ∀ ty raw, ty = "className" ∨ ty = "id" ∨ ty = "text" →
      getElementSelector ty raw = fillInputSelector ty raw := by
  intro ty raw h
  rcases h with h | h | h <;> subst h <;> rfl

/-- Witness for C10 at the concrete kind "id" and raw value "login". -/
theorem selector_building_duplicates_agree_witness :
    getElementSelector "id" "login" = fillInputSelector "id" "login" :=
  selector_building_duplicates_agree "id" "login" (Or.inr (Or.inl rfl))

/-- C9: a navigate request that omits the `type` discriminator validates to
the same `NavigateInput` as one with an explicit `type="url"` — the pydantic
field defaults to "url" — so `navigate` behaves identically on the two
requests for every page and every url field. -/
theorem navigate_type_defaults_to_url :
    (∀ u, NavigateInput.validate Option.none u =
      NavigateInput.validate (Option.some "url") u) ∧
    (∀ u page input, NavigateInput.validate Option.none u = Option.some input →
      navigate page input = navigate page { type := "url", url := u }) := by
  refine ⟨fun u => rfl, ?_⟩
  intro u page input h
  have : input = { type := "url", url := u } := by
    simpa [NavigateInput.validate] using h.symm
  rw [this]

/-- Witness for C9: a request carrying only a url validates like an
explicit `type="url"` request and navigates identically on `pageW`. -/
theorem navigate_type_defaults_to_url_witness :
    NavigateInput.validate Option.none (Option.some "https://example.com") =
      NavigateInput.validate (Option.some "url") (Option.some "https://example.com") ∧
    navigate pageW { type := "url", url := Option.some "https://example.com" } =
      navigate pageW { type := "url", url := Option.some "https://example.com" } :=
  ⟨navigate_type_defaults_to_url.1 _,
   navigate_type_defaults_to_url.2 (Option.some "https://example.com") pageW _ rfl⟩

/-- Counterexample to C1 as stated: with a release environment whose
context-close call raises, the `finally` block attempts only the context
close — neither the browser close nor the engine-client stop runs, and the
exception propagates — contradicting the claim that a failure in an earlier
step does not prevent the later steps. -/
theorem appLifespanRelease_not_besteffort :
    appLifespanRelease
      { contextClose := Except.error "context close failed",
        browserClose := Except.ok (), playwrightStop := Except.ok () } =
      ([TStep.contextClose], Except.error "context close failed") ∧
    TStep.browserClose ∉ [TStep.contextClose] ∧
    TStep.playwrightStop ∉ [TStep.contextClose] :=
  ⟨rfl, by decide, by decide⟩

/-- C1 as amended: during session release the three teardown steps are
attempted in order (context close, then browser close, then engine-client
stop), each later step running only when every earlier one succeeded; a
failure in an earlier step aborts the remaining steps and propagates, so in
particular if closing the browsing context raises, neither the browser
handle nor the engine client is closed. -/
theorem appLifespanRelease_order_and_abort :
    ∀ env : LifecycleEnv,
    (env.contextClose = Except.ok () → env.browserClose = Except.ok () →
      env.playwrightStop = Except.ok () →
      appLifespanRelease env =
        ([TStep.contextClose, TStep.browserClose, TStep.playwrightStop], Except.ok ())) ∧
    (∀ e, env.contextClose = Except.error e →
      appLifespanRelease env = ([TStep.contextClose], Except.error e)) ∧
    (∀ e, env.contextClose = Except.ok () → env.browserClose = Except.error e →
      appLifespanRelease env =
        ([TStep.contextClose, TStep.browserClose], Except.error e)) ∧
    (∀ e, env.contextClose = Except.ok () → env.browserClose = Except.ok () →
      env.playwrightStop = Except.error e →
      appLifespanRelease env =
        ([TStep.contextClose, TStep.browserClose, TStep.playwrightStop], Except.error e)) := by
  intro env
  refine ⟨?_, ?_, ?_, ?_⟩
  · intro h1 h2 h3
    simp [appLifespanRelease, h1, h2, h3]
  · intro e h1
    simp [appLifespanRelease, h1]
  · intro e h1 h2
    simp [appLifespanRelease, h1, h2]
  · intro e h1 h2 h3
    simp [appLifespanRelease, h1, h2, h3]

/-- Witness for the amended C1: on an environment whose context close
raises, release attempts only the context close and re-raises; on an
all-successful environment it runs all three steps in order. -/
theorem appLifespanRelease_order_and_abort_witness :
    appLifespanRelease
      { contextClose := Except.error "boom",
        browserClose := Except.ok (), playwrightStop := Except.ok () } =
      ([TStep.contextClose], Except.error "boom") ∧
    appLifespanRelease
      { contextClose := Except.ok (),
        browserClose := Except.ok (), playwrightStop := Except.ok () } =
      ([TStep.contextClose, TStep.browserClose, TStep.playwrightStop], Except.ok ()) :=
  ⟨(appLifespanRelease_order_and_abort _).2.1 "boom" rfl,
   (appLifespanRelease_order_and_abort _).1 rfl rfl rfl⟩

/-- Counterexample to C2 as stated: `getSnapshot`'s `if`/`elif` chain has no
`else` branch, so a request whose `type` discriminator lies outside the
declared enumeration falls off the end of the `try` block and the function
returns Python `None` — not a plain 'invalid type' string listing the legal
values. -/
theorem getSnapshot_invalid_type_not_a_string :
    (getSnapshot pageW { type := "video" }).1 = Ret.pyNone ∧
    Ret.isStr (getSnapshot pageW { type := "video" }).1 = false :=
  ⟨rfl, rfl⟩

/-- C2 as amended: for `getElement`, `navigate` and `fillInput`, a request
whose `type` discriminator lies outside the declared enumeration returns the
plain-string 'invalid type' error listing the legal values (and `getElement`
returns the analogous 'Invalid action' string for an out-of-enumeration
`action` once an element is found); `getSnapshot`, whose `if`/`elif` chain
has no `else` branch, instead returns Python `None` — no string at all — for
an out-of-enumeration `type`. -/
theorem invalid_discriminator_handling :
    (∀ page input, input.type ∉ (["className", "id", "text"] : List String) →
      getElement page input = (Ret.str ("Error: Invalid type '" ++ input.type ++
        "'. Must be 'className', 'id', or 'text'"), [])) ∧
    (∀ page input selector element,
      getElementSelector input.type input.selector = Option.some selector →
      page.querySelector selector = Except.ok (Option.some element) →
      input.action ∉ (["click", "getText", "extractLinks", "getRawElement", "type"] :
        List String) →
      getElement page input = (Ret.str ("Error: Invalid action '" ++ input.action ++
        "'. Must be 'click', 'getText', 'extractLinks', 'getRawElement', or 'type'"),
        [Eff.querySelector selector])) ∧
    (∀ page input, input.type ∉ (["url", "back", "forward", "refresh"] : List String) →
      navigate page input = (Ret.str ("Error: Invalid navigation type '" ++
        input.type ++ "'. Must be 'url', 'back', 'forward', or 'refresh'"), [])) ∧
    (∀ page input,
      input.type ∉ (["className", "id", "text", "placeholder", "label"] : List String) →
      fillInput page input = (Ret.str ("Error: Invalid type '" ++ input.type ++
        "'. Must be 'className', 'id', 'text', 'placeholder', or 'label'"), [])) ∧
    (∀ page input, input.type ∉ (["accessibility", "image"] : List String) →
      getSnapshot page input = (Ret.pyNone, [])) := by
  refine ⟨?_, ?_, ?_, ?_, ?_⟩
  · intro page input h
    simp only [List.mem_cons, List.mem_singleton, not_or] at h
    obtain ⟨h1, h2, h3, -⟩ := h
    unfold getElement getElementSelector
    rw [if_neg h1, if_neg h2, if_neg h3]
  · intro page input selector element hsel hq hact
    simp only [List.mem_cons, List.mem_singleton, not_or] at hact
    obtain ⟨a1, a2, a3, a4, a5, -⟩ := hact
    rw [getElement_some_eq hsel, runTool_eq, getElementBody_found hq,
      getElementAction_invalid _ a1 a2 a3 a4 a5]
  · intro page input h
    simp only [List.mem_cons, List.mem_singleton, not_or] at h
    obtain ⟨h1, h2, h3, h4, -⟩ := h
    unfold navigate
    rw [runTool_eq]
    unfold navigateBody
    rw [if_neg h1, if_neg h2, if_neg h3, if_neg h4]
    rfl
  · intro page input h
    simp only [List.mem_cons, List.mem_singleton, not_or] at h
    obtain ⟨h1, h2, h3, h4, h5, -⟩ := h
    unfold fillInput fillInputSelector
    rw [if_neg h1, if_neg h2, if_neg h3, if_neg h4, if_neg h5]
  · intro page input h
    simp only [List.mem_cons, List.mem_singleton, not_or] at h
    obtain ⟨h1, h2, -⟩ := h
    unfold getSnapshot
    rw [runTool_eq]
    unfold getSnapshotBody
    rw [if_neg h1, if_neg h2]
    rfl

/-- Witness for the amended C2 at concrete out-of-enumeration
discriminators on pageW. -/
theorem invalid_discriminator_handling_witness :
    getElement pageW
      { type := "xpath", selector := "s", action := "click", text := Option.none } =
      (Ret.str "Error: Invalid type 'xpath'. Must be 'className', 'id', or 'text'",
       []) ∧
    getElement pageW
      { type := "id", selector := "s", action := "hover", text := Option.none } =
      (Ret.str "Error: Invalid action 'hover'. Must be 'click', 'getText', 'extractLinks', 'getRawElement', or 'type'",
       [Eff.querySelector "#s"]) ∧
    navigate pageW { type := "teleport", url := Option.none } =
      (Ret.str "Error: Invalid navigation type 'teleport'. Must be 'url', 'back', 'forward', or 'refresh'",
       []) ∧
    fillInput pageW { type := "css", selector := "s", value := "v" } =
      (Ret.str "Error: Invalid type 'css'. Must be 'className', 'id', 'text', 'placeholder', or 'label'",
       []) ∧
    getSnapshot pageW { type := "video" } = (Ret.pyNone, []) :=
  ⟨invalid_discriminator_handling.1 pageW _ (by decide),
   invalid_discriminator_handling.2.1 pageW _ "#s" elemW rfl rfl (by decide),
   invalid_discriminator_handling.2.2.1 pageW _ (by decide),
   invalid_discriminator_handling.2.2.2.1 pageW _ (by decide),
   invalid_discriminator_handling.2.2.2.2 pageW _ (by decide)⟩

/-- C3: for each of the four tool operations, whenever the body of its
`try` block raises — i.e. whenever any of the underlying Playwright calls
fails, with description `e` — the operation returns the plain string built
from its `except` clause, which embeds the exception's description `e`
together with the operation-identifying text: the action name for
`getElement`, the navigation type for `navigate`, the snapshot type for
`getSnapshot`, and the fixed phrase naming the fill-input operation for
`fillInput`.  No exception propagates out of a tool: each embedded tool
function is total, returning a `Ret` for every environment, with `runTool`
covering every outcome of the body. -/
theorem exceptions_stringified_at_boundary :
    (∀ page input selector e,
      getElementSelector input.type input.selector = Option.some selector →
      (getElementBody page input selector []).1 = Except.error e →
      (getElement page input).1 =
        Ret.str ("Error performing action '" ++ input.action ++
          "' on element: " ++ e)) ∧
    (∀ page input e, (navigateBody page input []).1 = Except.error e →
      (navigate page input).1 =
        Ret.str ("Error performing navigation '" ++ input.type ++ "': " ++ e)) ∧
    (∀ page input e, (getSnapshotBody page input []).1 = Except.error e →
      (getSnapshot page input).1 =
        Ret.str ("Error capturing " ++ input.type ++ " snapshot: " ++ e)) ∧
    (∀ page input selector e,
      fillInputSelector input.type input.selector = Option.some selector →
      (fillInputBody page selector input.value []).1 = Except.error e →
      (fillInput page input).1 = Ret.str ("Error filling input field: " ++ e)) := by
  refine ⟨?_, ?_, ?_, ?_⟩
  · intro page input selector e hsel hb
    rw [getElement_some_eq hsel]
    exact runTool_error hb
  · intro page input e hb
    unfold navigate
    exact runTool_error hb
  · intro page input e hb
    unfold getSnapshot
    exact runTool_error hb
  · intro page input selector e hsel hb
    rw [fillInput_some_eq hsel]
    exact runTool_error hb

/-- Witness for C3: on a page whose every call raises an exception
described "boom", each of the four tools returns its boundary error
string. -/
theorem exceptions_stringified_at_boundary_witness :
    (getElement pageBoom
      { type := "id", selector := "s", action := "click", text := Option.none }).1 =
      Ret.str "Error performing action 'click' on element: boom" ∧
    (navigate pageBoom { type := "back", url := Option.none }).1 =
      Ret.str "Error performing navigation 'back': boom" ∧
    (getSnapshot pageBoom { type := "image" }).1 =
      Ret.str "Error capturing image snapshot: boom" ∧
    (fillInput pageBoom { type := "id", selector := "s", value := "v" }).1 =
      Ret.str "Error filling input field: boom" :=
  ⟨exceptions_stringified_at_boundary.1 pageBoom _ "#s" "boom" rfl rfl,
   exceptions_stringified_at_boundary.2.1 pageBoom _ "boom" rfl,
   exceptions_stringified_at_boundary.2.2.1 pageBoom _ "boom" rfl,
   exceptions_stringified_at_boundary.2.2.2 pageBoom _ "#s" "boom" rfl rfl⟩

/-- C5: a `getElement` request with action `type` and no `text` — on a
valid selector kind and a page on which the selector matches an element —
returns the distinct validation error string, and its trace holds only the
element query: neither the clear call nor any keystroke-input call is
executed, so no DOM mutation is performed. -/
theorem type_action_missing_text_validation :
    ∀ page input selector element,
      input.action = "type" → input.text = Option.none →
      getElementSelector input.type input.selector = Option.some selector →
      page.querySelector selector = Except.ok (Option.some element) →
      getElement page input =
        (Ret.str "Error: 'text' parameter is required when action is 'type'",
         [Eff.querySelector selector]) ∧
      Eff.clear ∉ (getElement page input).2 ∧
      (∀ s, Eff.typeText s ∉ (getElement page input).2) := by
  intro page input selector element hact htext hsel hq
  have hmain : getElement page input =
      (Ret.str "Error: 'text' parameter is required when action is 'type'",
       [Eff.querySelector selector]) := by
    rw [getElement_some_eq hsel, runTool_eq, getElementBody_found hq,
      getElementAction_type_noText _ hact htext]
  refine ⟨hmain, ?_, ?_⟩
  · rw [hmain]
    simp
  · intro s
    rw [hmain]
    simp

/-- Witness for C5 on pageW, whose query finds `elemW`: the validation
error is returned and the trace holds only the query. -/
theorem type_action_missing_text_validation_witness :
    getElement pageW
      { type := "id", selector := "user", action := "type", text := Option.none } =
      (Ret.str "Error: 'text' parameter is required when action is 'type'",
       [Eff.querySelector "#user"]) ∧
    Eff.clear ∉ (getElement pageW
      { type := "id", selector := "user", action := "type", text := Option.none }).2 ∧
    (∀ s, Eff.typeText s ∉ (getElement pageW
      { type := "id", selector := "user", action := "type", text := Option.none }).2) :=
  type_action_missing_text_validation pageW _ "#user" elemW rfl rfl rfl rfl

/-- C6: a `getElement` request whose selector resolves but matches zero
elements returns the plain not-found message carrying the resolved selector
string — a returned value, not a raised exception, the query being the only
call in the trace — and a `navigate` request with type `url` and no url
returns the distinct validation error message with an empty trace, so
nothing was navigated. -/
theorem notFound_and_missing_url_handling :
    (∀ page input selector,
      getElementSelector input.type input.selector = Option.some selector →
      page.querySelector selector = Except.ok Option.none →
      getElement page input =
        (Ret.str ("Element not found with selector: " ++ selector),
         [Eff.querySelector selector])) ∧
    (∀ page, navigate page { type := "url", url := Option.none } =
      (Ret.str "Error: url parameter is required when type is 'url'", [])) := by
  constructor
  · intro page input selector hsel hq
    rw [getElement_some_eq hsel, runTool_eq, getElementBody_notFound hq]
  · intro page
    rfl

/-- Witness for C6: the not-found message on a page matching nothing, and
the missing-url validation error on pageW. -/
theorem notFound_and_missing_url_handling_witness :
    getElement pageNoMatch
      { type := "text", selector := "More information...", action := "click",
        text := Option.none } =
      (Ret.str "Element not found with selector: text=More information...",
       [Eff.querySelector "text=More information..."]) ∧
    navigate pageW { type := "url", url := Option.none } =
      (Ret.str "Error: url parameter is required when type is 'url'", []) :=
  ⟨notFound_and_missing_url_handling.1 pageNoMatch _ "text=More information..."
      rfl rfl,
   notFound_and_missing_url_handling.2 pageW⟩

/-- C7: `getElement` with action `extractLinks`, on an element whose
anchors each yield their data, returns the structured payload whose links
field is `List.map` over the anchor list — exactly one entry per descendant
anchor, preserving document order — each entry holding the anchor's href
attribute (JSON null, via `Json.ofOptStr`, when the anchor has none) and
its text content. -/
theorem extractLinks_payload :
    ∀ page input selector element
      (anchorData : List (Option String × Option String)),
      input.action = "extractLinks" →
      getElementSelector input.type input.selector = Option.some selector →
      page.querySelector selector = Except.ok (Option.some element) →
      element.queryAnchors = Except.ok (anchorData.map Anchor.ofData) →
      (getElement page input).1 = Ret.dumps (Json.obj
        [("action", Json.str "extractLinks"), ("selector", Json.str selector),
         ("links", Json.arr (anchorData.map (fun d =>
           Json.obj [("href", Json.ofOptStr d.1), ("text", Json.ofOptStr d.2)])))]) := by
  intro page input selector element anchorData hact hsel hq hanch
  obtain ⟨t2, h2⟩ := getElementAction_extractLinks
    selector [Eff.querySelector selector] hact hanch
  rw [getElement_some_eq hsel, runTool_eq, getElementBody_found hq, h2]

/-- Witness for C7 on `pageLinks`, whose element holds two anchors, the
second without an href: the payload lists both, in order, with a null
href for the second. -/
theorem extractLinks_payload_witness :
    (getElement pageLinks
      { type := "className", selector := "nav", action := "extractLinks",
        text := Option.none }).1 =
      Ret.dumps (Json.obj
        [("action", Json.str "extractLinks"), ("selector", Json.str ".nav"),
         ("links", Json.arr (linkDataW.map (fun d =>
           Json.obj [("href", Json.ofOptStr d.1), ("text", Json.ofOptStr d.2)])))]) :=
  extractLinks_payload pageLinks _ ".nav"
    { elemW with queryAnchors := Except.ok (linkDataW.map Anchor.ofData) }
    linkDataW rfl rfl rfl rfl

set_option maxHeartbeats 1000000 in
theorem b64charIndex_b64char : ∀ n < 64, b64charIndex (b64char n) = Option.some n := by
  decide

set_option maxHeartbeats 1000000 in
theorem b64char_ne_pad : ∀ n < 64, b64char n ≠ '=' := by
  decide

theorem b64decodeChars_two_pad {w x : Char} {a b : Nat}
    (hw : b64charIndex w = Option.some a) (hx : b64charIndex x = Option.some b) :
    b64decodeChars [w, x, '=', '='] = Option.some [a * 4 + b / 16] := by
  simp [b64decodeChars, hw, hx]

theorem b64decodeChars_one_pad {w x y : Char} {a b c : Nat}
    (hw : b64charIndex w = Option.some a) (hx : b64charIndex x = Option.some b)
    (hy : b64charIndex y = Option.some c) (hyne : y ≠ '=') :
    b64decodeChars [w, x, y, '='] =
      Option.some [a * 4 + b / 16, b % 16 * 16 + c / 4] := by
  simp [b64decodeChars, hw, hx, hy, hyne]

theorem b64decodeChars_group {w x y z : Char} {rest : List Char} {a b c d : Nat}
    (hw : b64charIndex w = Option.some a) (hx : b64charIndex x = Option.some b)
    (hy : b64charIndex y = Option.some c) (hz : b64charIndex z = Option.some d)
    (hyne : y ≠ '=') (hzne : z ≠ '=') :
    b64decodeChars (w :: x :: y :: z :: rest) =
      (b64decodeChars rest).map (fun tail =>
        (a * 4 + b / 16) :: (b % 16 * 16 + c / 4) :: (c % 4 * 64 + d) :: tail) := by
  rcases hrest : b64decodeChars rest with _ | tail <;>
    simp [b64decodeChars, hw, hx, hy, hz, hyne, hzne, hrest]

theorem b64decodeChars_b64encodeChars :
    ∀ bytes : List Nat, (∀ x ∈ bytes, x < 256) →
      b64decodeChars (b64encodeChars bytes) = Option.some bytes := by
  intro bytes
  induction bytes using b64encodeChars.induct with
  | case1 =>
    intro h
    rfl
  | case2 a =>
    intro h
    have ha : a < 256 := h a (by simp)
    simp only [b64encodeChars]
    rw [b64decodeChars_two_pad (b64charIndex_b64char _ (by omega))
      (b64charIndex_b64char _ (by omega))]
    have e1 : a / 4 * 4 + a % 4 * 16 / 16 = a := by omega
    rw [e1]
  | case3 a b =>
    intro h
    have ha : a < 256 := h a (by simp)
    have hb : b < 256 := h b (by simp)
    simp only [b64encodeChars]
    rw [b64decodeChars_one_pad (b64charIndex_b64char _ (by omega))
      (b64charIndex_b64char _ (by omega)) (b64charIndex_b64char _ (by omega))
      (b64char_ne_pad _ (by omega))]
    have e1 : a / 4 * 4 + (a % 4 * 16 + b / 16) / 16 = a := by omega
    have e2 : (a % 4 * 16 + b / 16) % 16 * 16 + b % 16 * 4 / 4 = b := by omega
    rw [e1, e2]
  | case4 a b c rest ih =>
    intro h
    have ha : a < 256 := h a (by simp)
    have hb : b < 256 := h b (by simp)
    have hc : c < 256 := h c (by simp)
    have hrest : ∀ x ∈ rest, x < 256 := fun x hx => h x (by simp [hx])
    simp only [b64encodeChars]
    rw [b64decodeChars_group (b64charIndex_b64char _ (by omega))
      (b64charIndex_b64char _ (by omega)) (b64charIndex_b64char _ (by omega))
      (b64charIndex_b64char _ (by omega)) (b64char_ne_pad _ (by omega))
      (b64char_ne_pad _ (by omega))]
    rw [ih hrest]
    have e1 : a / 4 * 4 + (a % 4 * 16 + b / 16) / 16 = a := by omega
    have e2 : (a % 4 * 16 + b / 16) % 16 * 16 + (b % 16 * 4 + c / 64) / 4 = b := by
      omega
    have e3 : (b % 16 * 4 + c / 64) % 4 * 64 + c % 64 = c := by omega
    simp [e1, e2, e3]

theorem b64decode_b64encode (bytes : List Nat) (h : ∀ x ∈ bytes, x < 256) :
    b64decode (b64encode bytes) = Option.some bytes := by
  unfold b64decode b64encode
  exact b64decodeChars_b64encodeChars bytes h

/-- C8: `getSnapshot` with type `image`, on a page whose screenshot call —
made with the source's fixed arguments full_page=True, type="jpeg",
quality=50, as the trace records — yields byte values that begin with the
JPEG start-of-image marker 0xFF 0xD8, returns the structured payload whose
`data` field is the base64 encoding of exactly those bytes (valid base64:
the reference decoder recovers the bytes, which therefore still begin with
the JPEG header), whose `encoding` field is "base64", and whose `format`
field is the constant text "jpeg" for every page environment, independent
of the bytes. -/
theorem snapshot_image_payload :
    ∀ (page : Page) (bytes : List Nat),
      page.screenshot = Except.ok bytes →
      (∀ x ∈ bytes, x < 256) →
      bytes.take 2 = [255, 216] →
      getSnapshot page { type := "image" } =
        (Ret.dumps (Json.obj
          [("type", Json.str "image"), ("format", Json.str "jpeg"),
           ("data", Json.str (b64encode bytes)), ("encoding", Json.str "base64")]),
         [Eff.screenshot true "jpeg" 50]) ∧
      b64decode (b64encode bytes) = Option.some bytes ∧
      ((b64decode (b64encode bytes)).getD []).take 2 = [255, 216] := by
  intro page bytes hshot hbytes hjpeg
  have hdec := b64decode_b64encode bytes hbytes
  refine ⟨?_, hdec, ?_⟩
  · unfold getSnapshot
    rw [runTool_eq]
    unfold getSnapshotBody
    rw [if_neg (by decide), if_pos rfl]
    rw [PW.call_bind_ok hshot]
    rfl
  · rw [hdec]
    exact hjpeg

/-- Witness for C8 on pageW, whose screenshot bytes are
[255, 216, 255, 224, 0, 16] — a JPEG start-of-image followed by an APP0
marker prefix. -/
theorem snapshot_image_payload_witness :
    getSnapshot pageW { type := "image" } =
      (Ret.dumps (Json.obj
        [("type", Json.str "image"), ("format", Json.str "jpeg"),
         ("data", Json.str (b64encode [255, 216, 255, 224, 0, 16])),
         ("encoding", Json.str "base64")]),
       [Eff.screenshot true "jpeg" 50]) ∧
    b64decode (b64encode [255, 216, 255, 224, 0, 16]) =
      Option.some [255, 216, 255, 224, 0, 16] ∧
    ((b64decode (b64encode [255, 216, 255, 224, 0, 16])).getD []).take 2 =
      [255, 216] :=
  snapshot_image_payload pageW [255, 216, 255, 224, 0, 16] rfl (by decide)
    (by decide)

end BetterPlaywright
